import Mathlib

/-!
Verification of the Snooz integration (`homeassistant/components/snooz`).

The integration glues a BLE white-noise/fan device driver (the `pysnooz`
device session) to a home-automation host.  The files under
`homeassistant/components/snooz` are embedded directly; the `pysnooz`
driver itself is not part of the repository's sources, so its data types
and the device-session behaviour are modelled from the specification
(each such definition says so in its doc comment).
-/

/-- Status of a completed command, as carried by the driver's result
object: `SUCCESSFUL`, `CANCELLED`, or a failure kind
(`DEVICE_UNAVAILABLE` / `UNEXPECTED_ERROR`). -/
inductive SnoozCommandResultStatus where
  | successful
  | cancelled
  | deviceUnavailable
  | unexpectedError
deriving DecidableEq

/-- Outcome of a submitted command: a status plus the elapsed duration
(in seconds). -/
structure SnoozCommandResult where
  status : SnoozCommandResultStatus
  duration : ℕ
deriving DecidableEq

/-- Live device-state snapshot: power, volume percentage, fan power and
speed, auto-temperature mode, target and measured temperature,
night-light power and brightness, night mode.  Field names follow the
attribute reads in the sources (`state.on`, `state.fan_on`,
modulo `power_on` standing for the source field `on`, which is a
reserved token here,
`state.fan_speed`, `state.fan_auto_enabled`, `state.target_temperature`,
`state.temperature`, `state.light_on`, `state.light_brightness`,
`state.night_mode_enabled`). -/
structure SnoozDeviceState where
  power_on : Bool
  volume : ℕ
  fan_on : Bool
  fan_speed : ℚ
  fan_auto_enabled : Bool
  target_temperature : ℕ
  temperature : ℚ
  light_on : Bool
  light_brightness : ℕ
  night_mode_enabled : Bool
deriving DecidableEq

/-- Modelled from the spec: `pysnooz.SnoozCommandData`, a request to
change a subset of `SnoozDeviceState` fields, optionally with a
transition duration; unset (`none`) fields mean "leave unchanged". -/
structure SnoozCommandData where
  power_on : Option Bool := none
  volume : Option ℕ := none
  fan_on : Option Bool := none
  fan_speed : Option ℚ := none
  fan_auto_enabled : Option Bool := none
  target_temperature : Option ℕ := none
  light_on : Option Bool := none
  light_brightness : Option ℕ := none
  night_mode_enabled : Option Bool := none
  duration : Option ℕ := none
deriving DecidableEq

/-- Modelled from the spec: `pysnooz.turn_on(volume=..., duration=...)`,
the command turning the white-noise feature on. -/
def turn_on (volume : Option ℕ) (duration : Option ℕ) : SnoozCommandData :=
  { power_on := some true, volume := volume, duration := duration }

/-- Modelled from the spec: `pysnooz.turn_off(duration=...)`. -/
def turn_off (duration : Option ℕ) : SnoozCommandData :=
  { power_on := some false, duration := duration }

/-- Modelled from the spec: `pysnooz.set_volume(v)`. -/
def set_volume (v : ℕ) : SnoozCommandData :=
  { volume := some v }

/-- Modelled from the spec: `pysnooz.turn_fan_on(speed=..., duration=...)`. -/
def turn_fan_on (speed : Option ℚ) (duration : Option ℕ) : SnoozCommandData :=
  { fan_on := some true, fan_speed := speed, duration := duration }

/-- Modelled from the spec: `pysnooz.turn_fan_off(duration=...)`. -/
def turn_fan_off (duration : Option ℕ) : SnoozCommandData :=
  { fan_on := some false, duration := duration }

/-- Modelled from the spec: `pysnooz.set_fan_speed(s)`. -/
def set_fan_speed (s : ℚ) : SnoozCommandData :=
  { fan_speed := some s }

/-- Modelled from the spec: `pysnooz.turn_light_on(brightness=...)`. -/
def turn_light_on (brightness : Option ℕ) : SnoozCommandData :=
  { light_on := some true, light_brightness := brightness }

/-- Modelled from the spec: `pysnooz.turn_light_off()`. -/
def turn_light_off : SnoozCommandData :=
  { light_on := some false }

/-- Observable effect of one `SnoozEntity._async_execute_command` call:
whether a `HomeAssistantError` propagated to the caller and whether
`_async_write_state_changed` was invoked before the call returned. -/
structure ExecOutcome where
  raised_error : Bool
  wrote_state : Bool
deriving DecidableEq

/-- Embedding of `SnoozEntity._async_execute_command`
(`entity.py`, lines 25-34): await the driver result; on `SUCCESSFUL`
invoke `_async_write_state_changed`; otherwise, unless the status is
`CANCELLED`, raise `HomeAssistantError`. -/
def _async_execute_command (result : SnoozCommandResult) : ExecOutcome :=
  if result.status = SnoozCommandResultStatus.successful then
    { raised_error := false, wrote_state := true }
  else if result.status ≠ SnoozCommandResultStatus.cancelled then
    { raised_error := true, wrote_state := false }
  else
    { raised_error := false, wrote_state := false }

/-- Static metadata fetched once at setup, following the attribute reads
in `models.py` (`info.manufacturer`, `info.hardware`, `info.software`,
`info.firmware`, `info.supports_fan`). -/
structure SnoozDeviceInfo where
  manufacturer : String
  hardware : String
  software : Option String
  firmware : String
  supports_fan : Bool
deriving DecidableEq

/-- Fields of the `SnoozConfigurationData` dataclass, in declaration
order (`models.py`, lines 13-20). -/
def snoozConfigurationDataFields : List String :=
  ["ble_device", "device", "info", "title"]

/-- The positional arguments passed to `SnoozConfigurationData(...)` by
`async_setup_entry` (`__init__.py`, lines 70-72), in order. -/
def asyncSetupEntryArgs : List String :=
  ["ble_device", "adv_data", "device_info", "device", "entry.title"]

/-- Fields of the configuration record read by the fan platform's
`async_setup_entry` (`fan.py`, line 70 reads `data.info`). -/
def fanSetupFieldReads : List String := ["info"]

/-- Fields of the configuration record read by the climate platform's
`async_setup_entry` (`climate.py`, line 37 reads `data.adv_data`). -/
def climateSetupFieldReads : List String := ["adv_data"]

/-- A Python dataclass-generated constructor call: binds positional
arguments to declared fields in order, or fails with a `TypeError` when
the argument count does not match the field count. -/
def dataclassInit (fields : List String) (args : List String) :
    Option (List (String × String)) :=
  if args.length = fields.length then some (fields.zip args) else none

/-- How one `async_setup_entry` call in `__init__.py` terminates. -/
inductive SetupOutcome where
  | configEntryNotReady
  | configEntryError
  | typeError
  | success (stored : List (String × String))
deriving DecidableEq

/-- Embedding of `async_setup_entry` (`__init__.py`, lines 44-76),
parameterised by its two environment-dependent inputs: whether
`async_ble_device_from_address` finds the device, and what
`device.async_get_info()` returns.  The second component records whether
`device.async_disconnect()` was awaited during the call (in the source
it is awaited immediately before `ConfigEntryError` is raised).  On the
success path the source calls the `SnoozConfigurationData` constructor
with five positional arguments against four declared fields, which the
dataclass-generated constructor rejects with a `TypeError`. -/
def async_setup_entry (ble_device_found : Bool)
    (get_info_result : Option SnoozDeviceInfo) : SetupOutcome × Bool :=
  if ble_device_found = false then (SetupOutcome.configEntryNotReady, false)
  else
    match get_info_result with
    | none => (SetupOutcome.configEntryError, true)
    | some _ =>
        match dataclassInit snoozConfigurationDataFields asyncSetupEntryArgs with
        | none => (SetupOutcome.typeError, false)
        | some stored => (SetupOutcome.success stored, false)

/-- A Python runtime value, as far as the fan percentage properties
produce them: the white-noise revision returns a `bool` where an
integer is expected, so values of both kinds must be comparable the
way Python compares them (`True == 1`). -/
inductive PyValue where
  | pybool (b : Bool)
  | pyint (n : ℤ)
  | pyrat (q : ℚ)
deriving DecidableEq

/-- Numeric value of a Python value (`bool` is an `int` subclass in
Python: `True` is `1`, `False` is `0`). -/
def pyNum : PyValue → ℚ
  | PyValue.pybool b => if b then 1 else 0
  | PyValue.pyint n => (n : ℚ)
  | PyValue.pyrat q => q

/-- Python numeric equality across `bool`/`int`/numeric values. -/
def pyEq (a b : PyValue) : Bool :=
  decide (pyNum a = pyNum b)

/-- Embedding of `SnoozWhiteNoiseFan.feature_is_on` (`fan.py`,
lines 187-189): returns `self._device.state.on`. -/
def SnoozWhiteNoiseFan.feature_is_on (s : SnoozDeviceState) : Bool :=
  s.power_on

/-- Embedding of `SnoozWhiteNoiseFan.feature_percentage` (`fan.py`,
lines 191-193): the body returns `self._device.state.on` — the power
flag, not the volume. -/
def SnoozWhiteNoiseFan.feature_percentage (s : SnoozDeviceState) : PyValue :=
  PyValue.pybool s.power_on

/-- Embedding of `SnoozAirflowFan.feature_is_on` (`fan.py`,
lines 216-218): returns `self._device.state.fan_on`. -/
def SnoozAirflowFan.feature_is_on (s : SnoozDeviceState) : Bool :=
  s.fan_on

/-- Embedding of `SnoozAirflowFan.feature_percentage` (`fan.py`,
lines 220-222): returns `self._device.state.fan_speed * 100`. -/
def SnoozAirflowFan.feature_percentage (s : SnoozDeviceState) : PyValue :=
  PyValue.pyrat (s.fan_speed * 100)

/-- Embedding of `SnoozWhiteNoiseFan.set_percentage_command` (`fan.py`,
lines 205-207): `set_volume(percentage)`. -/
def SnoozWhiteNoiseFan.set_percentage_command (percentage : ℕ) : SnoozCommandData :=
  set_volume percentage

/-- Embedding of `SnoozWhiteNoiseFan.turn_off_command` (`fan.py`,
lines 201-203) at its default argument: `turn_off(duration=None)`. -/
def SnoozWhiteNoiseFan.turn_off_command : SnoozCommandData :=
  turn_off none

/-- Embedding of `SnoozAirflowFan.set_percentage_command` (`fan.py`,
lines 234-236): `set_fan_speed(percentage / 100)` (Python true
division). -/
def SnoozAirflowFan.set_percentage_command (percentage : ℕ) : SnoozCommandData :=
  set_fan_speed ((percentage : ℚ) / 100)

/-- Embedding of `SnoozAirflowFan.turn_off_command` (`fan.py`,
lines 230-232) at its default argument: `turn_fan_off(duration=None)`. -/
def SnoozAirflowFan.turn_off_command : SnoozCommandData :=
  turn_fan_off none

/-- Embedding of `SnoozFan.async_set_percentage` (`fan.py`,
lines 137-143), parameterised by the subclass-provided command
builders: execute `set_percentage_command(percentage)` when
`percentage > 0`, else `turn_off_command()`. -/
def SnoozFan.async_set_percentage (set_percentage_command : ℕ → SnoozCommandData)
    (turn_off_command : SnoozCommandData) (percentage : ℕ) : SnoozCommandData :=
  if percentage > 0 then set_percentage_command percentage else turn_off_command

/-- Round `a / b` to the nearest integer, ties to even (`b > 0`).  This
is both the IEEE-754 default rounding of an exact quotient and Python's
built-in `round` on an exactly represented value. -/
def roundHalfEvenDiv (a b : ℕ) : ℕ :=
  let q := a / b
  let r := a % b
  if 2 * r < b then q
  else if 2 * r > b then q + 1
  else if q % 2 = 0 then q else q + 1

/-- Fuel-driven bit length of a natural number (`bitLenAux fuel n` is
the number of binary digits of `n` for `n < 2 ^ fuel`). -/
def bitLenAux : ℕ → ℕ → ℕ
  | 0, _ => 0
  | fuel + 1, n => if n = 0 then 0 else bitLenAux fuel (n / 2) + 1

/-- Bit length of a natural number, with fuel ample for every quantity
appearing in the brightness computations (all below `2 ^ 128`). -/
def bitLen (n : ℕ) : ℕ := bitLenAux 128 n

/-- Round a natural number to 53 significant bits, ties to even: the
IEEE-754 binary64 rounding of the scaled value. -/
def fl53 (p : ℕ) : ℕ :=
  let L := bitLen p
  if L ≤ 53 then p
  else
    let s := L - 53
    roundHalfEvenDiv p (2 ^ s) * 2 ^ s

/-- Numerator of the IEEE-754 binary64 value nearest to the literal
`2.55`: `float(2.55) = 2871044762448691 / 2 ^ 50`. -/
def float255num : ℕ := 2871044762448691

/-- Least `k` with `2 ^ 52 * float255num ≤ t * 2 ^ k` (fuel-driven
search from `k`); used to locate the binade of `b / float(2.55)`. -/
def leastKAux : ℕ → ℕ → ℕ → ℕ
  | 0, k, _ => k
  | fuel + 1, k, t =>
      if 2 ^ 52 * float255num ≤ t * 2 ^ k then k
      else leastKAux fuel (k + 1) t

/-- Least scaling exponent for `_to_device_brightness` (fuel 200 covers
every positive input). -/
def leastK (t : ℕ) : ℕ := leastKAux 200 0 t

/-- Embedding of `_from_device_brightness` (`light.py`, lines 102-106):
`None` maps to `None`, otherwise `round(brightness * 2.55)` computed
with exact IEEE-754 binary64 semantics — the product
`float(brightness) * float(2.55)` is the correctly rounded (53-bit,
ties to even) value of `brightness * 2871044762448691 / 2 ^ 50`, and
Python's `round` rounds it to the nearest integer, ties to even. -/
def _from_device_brightness : Option ℕ → Option ℕ
  | none => none
  | some brightness =>
      let p := brightness * float255num
      some (roundHalfEvenDiv (fl53 p) (2 ^ 50))

/-- Embedding of `_to_device_brightness` (`light.py`, lines 109-113):
`None` maps to `None`, otherwise `round(brightness / 2.55)` computed
with exact IEEE-754 binary64 semantics — the quotient
`float(brightness) / float(2.55)` is correctly rounded to 53
significant bits (its binade located by `leastK`), and Python's `round`
rounds the result to the nearest integer, ties to even. -/
def _to_device_brightness : Option ℕ → Option ℕ
  | none => none
  | some brightness =>
      if brightness = 0 then some 0
      else
        let t := brightness * 2 ^ 50
        let k := leastK t
        let m := roundHalfEvenDiv (t * 2 ^ k) float255num
        some (roundHalfEvenDiv m (2 ^ k))

/-- Host-side view of one `SnoozFan` entity: the cached last-known-good
values (`self._is_on`, `self._percentage`), the driver's `is_connected`
flag, and the driver's live state snapshot. -/
structure SnoozFanModel where
  cached_is_on : Option Bool
  cached_percentage : Option PyValue
  is_connected : Bool
  state : SnoozDeviceState

/-- Embedding of `SnoozFan.assumed_state` (`fan.py`, lines 119-122):
`not self._device.is_connected`. -/
def SnoozFan.assumed_state (m : SnoozFanModel) : Bool :=
  !m.is_connected

/-- Embedding of `SnoozFan.percentage` (`fan.py`, lines 109-112):
`self._percentage if self.assumed_state else self.feature_percentage`,
with the subclass-provided `feature_percentage` passed explicitly. -/
def SnoozFan.percentage (feature_percentage : SnoozDeviceState → PyValue)
    (m : SnoozFanModel) : Option PyValue :=
  if SnoozFan.assumed_state m then m.cached_percentage
  else some (feature_percentage m.state)

/-- Embedding of `SnoozFan.is_on` (`fan.py`, lines 114-117):
`self._is_on if self.assumed_state else self.feature_is_on`, with the
subclass-provided `feature_is_on` passed explicitly. -/
def SnoozFan.is_on (feature_is_on : SnoozDeviceState → Bool)
    (m : SnoozFanModel) : Option Bool :=
  if SnoozFan.assumed_state m then m.cached_is_on
  else some (feature_is_on m.state)

/-- Host-side view of one `SnoozLightEntity`: cached last-known-good
values, the driver's `is_connected` flag and live state snapshot. -/
structure SnoozLightModel where
  cached_is_on : Option Bool
  cached_brightness : Option ℕ
  is_connected : Bool
  state : SnoozDeviceState

/-- Embedding of `SnoozLightEntity.assumed_state` (`light.py`,
lines 72-75): `not self._device.is_connected`. -/
def SnoozLightEntity.assumed_state (m : SnoozLightModel) : Bool :=
  !m.is_connected

/-- Embedding of `SnoozLightEntity.is_on` (`light.py`, lines 77-80):
`self._is_on if self.assumed_state else self._device.state.light_on`. -/
def SnoozLightEntity.is_on (m : SnoozLightModel) : Option Bool :=
  if SnoozLightEntity.assumed_state m then m.cached_is_on
  else some m.state.light_on

/-- Embedding of `SnoozLightEntity.brightness` (`light.py`,
lines 82-89): `self._brightness if self.assumed_state else
_from_device_brightness(self._device.state.light_brightness)`. -/
def SnoozLightEntity.brightness (m : SnoozLightModel) : Option ℕ :=
  if SnoozLightEntity.assumed_state m then m.cached_brightness
  else _from_device_brightness (some m.state.light_brightness)

/-- Modelled from the spec: applying a command to a state snapshot —
"a request to change a subset of DeviceState fields ... Unset fields
mean leave unchanged"; the measured temperature is a sensor reading and
not commandable. -/
def applyCommand (c : SnoozCommandData) (s : SnoozDeviceState) : SnoozDeviceState :=
  { power_on := c.power_on.getD s.power_on
    volume := c.volume.getD s.volume
    fan_on := c.fan_on.getD s.fan_on
    fan_speed := c.fan_speed.getD s.fan_speed
    fan_auto_enabled := c.fan_auto_enabled.getD s.fan_auto_enabled
    target_temperature := c.target_temperature.getD s.target_temperature
    temperature := s.temperature
    light_on := c.light_on.getD s.light_on
    light_brightness := c.light_brightness.getD s.light_brightness
    night_mode_enabled := c.night_mode_enabled.getD s.night_mode_enabled }

/-- Modelled from the spec: the Device Session's observable state —
the current `DeviceState` snapshot, the single in-flight command (the
`Option` makes "at most one command in flight at any instant" hold by
construction), the results already produced (command id paired with
status, in resolution order), and `is_connected`. -/
structure SessionModel where
  state : SnoozDeviceState
  in_flight : Option (ℕ × SnoozCommandData)
  results : List (ℕ × SnoozCommandResultStatus)
  is_connected : Bool
deriving DecidableEq

/-- Modelled from the spec: the events driving a Device Session in the
single-threaded cooperative scheduling model — a caller submitting a
command, the transport acknowledging the in-flight write, the transport
failing mid-command, and a disconnect request. -/
inductive SessionEvent where
  | submit (id : ℕ) (c : SnoozCommandData)
  | transportOk
  | transportFail
  | disconnect
deriving DecidableEq

/-- Modelled from the spec: one step of the Device Session.
`submit` preempts any in-flight command, which resolves `CANCELLED`
while the new command begins executing immediately; `transportOk`
resolves the in-flight command `SUCCESSFUL`, replacing the state
snapshot (and notifying subscribers) before control returns;
`transportFail` resolves it with a failure status and flips
`is_connected` to false without terminating the session; `disconnect`
resolves any in-flight command `CANCELLED` before the transport is torn
down and is idempotent. -/
def sessionStep (m : SessionModel) : SessionEvent → SessionModel
  | SessionEvent.submit id c =>
      match m.in_flight with
      | some (j, _) =>
          { m with in_flight := some (id, c)
                   results := m.results ++ [(j, SnoozCommandResultStatus.cancelled)] }
      | none => { m with in_flight := some (id, c) }
  | SessionEvent.transportOk =>
      match m.in_flight with
      | some (j, c) =>
          { m with state := applyCommand c m.state
                   in_flight := none
                   results := m.results ++ [(j, SnoozCommandResultStatus.successful)] }
      | none => m
  | SessionEvent.transportFail =>
      match m.in_flight with
      | some (j, _) =>
          { m with in_flight := none
                   results := m.results ++ [(j, SnoozCommandResultStatus.deviceUnavailable)]
                   is_connected := false }
      | none => { m with is_connected := false }
  | SessionEvent.disconnect =>
      match m.in_flight with
      | some (j, _) =>
          { m with in_flight := none
                   results := m.results ++ [(j, SnoozCommandResultStatus.cancelled)]
                   is_connected := false }
      | none => { m with is_connected := false }

/-- Run a Device Session over a list of events. -/
def sessionRun (m : SessionModel) (es : List SessionEvent) : SessionModel :=
  es.foldl sessionStep m

/-- A concrete device-state snapshot used for witnesses and
counterexamples: powered on at volume 40, fan on at speed percentage
40, night-light on at device brightness 50. -/
def exampleState40 : SnoozDeviceState :=
  { power_on := true
    volume := 40
    fan_on := true
    fan_speed := 40
    fan_auto_enabled := false
    target_temperature := 70
    temperature := 68
    light_on := true
    light_brightness := 50
    night_mode_enabled := false }

/-- A concrete static-metadata record used for witnesses. -/
def exampleInfo : SnoozDeviceInfo :=
  { manufacturer := "Snooz"
    hardware := "2"
    software := none
    firmware := "3"
    supports_fan := true }

/-- C1: a command executed through `SnoozEntity._async_execute_command`
raises a user-visible `HomeAssistantError` if and only if the result
status is neither `SUCCESSFUL` nor `CANCELLED`; in particular a
`CANCELLED` result never raises. -/
theorem c1_execute_command_error_iff (result : SnoozCommandResult) :
    (_async_execute_command result).raised_error = true ↔
      (result.status ≠ SnoozCommandResultStatus.successful ∧
        result.status ≠ SnoozCommandResultStatus.cancelled) := by
  cases result with
  | mk status duration => cases status <;> simp [_async_execute_command]

/-- Witness for C1 at a concrete input: a `CANCELLED` result raises no
error. -/
theorem c1_witness :
    (_async_execute_command
        { status := SnoozCommandResultStatus.cancelled, duration := 3 }).raised_error
      = false := by
  have h := c1_execute_command_error_iff
    { status := SnoozCommandResultStatus.cancelled, duration := 3 }
  simpa using h

/-- C5: `_async_execute_command` invokes `_async_write_state_changed`
before returning if and only if the result status is `SUCCESSFUL`; on
`CANCELLED` or a failure no state write occurs in that call. -/
theorem c5_write_state_iff_successful (result : SnoozCommandResult) :
    (_async_execute_command result).wrote_state = true ↔
      result.status = SnoozCommandResultStatus.successful := by
  cases result with
  | mk status duration => cases status <;> simp [_async_execute_command]

/-- Witness for C5 at a concrete input: a `SUCCESSFUL` result writes
state, a `CANCELLED` one does not. -/
theorem c5_witness :
    (_async_execute_command
        { status := SnoozCommandResultStatus.successful, duration := 1 }).wrote_state
        = true ∧
    (_async_execute_command
        { status := SnoozCommandResultStatus.cancelled, duration := 1 }).wrote_state
        = false := by
  constructor
  · exact (c5_write_state_iff_successful
      { status := SnoozCommandResultStatus.successful, duration := 1 }).mpr rfl
  · have h := c5_write_state_iff_successful
      { status := SnoozCommandResultStatus.cancelled, duration := 1 }
    simpa using h

/-- C2: with the BLE device found, `async_setup_entry` raises
`ConfigEntryError` if and only if `async_get_info()` returns `None`,
disconnecting the device in that case; but on the success path the
claim breaks: the source calls `SnoozConfigurationData` with five
positional arguments against four declared fields, so instead of
storing the configuration data the call raises a `TypeError`. -/
theorem c2_setup_entry_behavior :
    (∀ r : Option SnoozDeviceInfo,
        (async_setup_entry true r).1 = SetupOutcome.configEntryError ↔ r = none) ∧
    async_setup_entry true none = (SetupOutcome.configEntryError, true) ∧
    ∀ info : SnoozDeviceInfo,
        async_setup_entry true (some info) = (SetupOutcome.typeError, false) := by
  refine ⟨fun r => ?_, rfl, fun info => rfl⟩
  cases r <;> simp [async_setup_entry, dataclassInit,
    snoozConfigurationDataFields, asyncSetupEntryArgs]

/-- Witness for C2 at a concrete input: the success path ends in the
constructor `TypeError` rather than storing the record. -/
theorem c2_witness :
    async_setup_entry true (some exampleInfo) = (SetupOutcome.typeError, false) :=
  c2_setup_entry_behavior.2.2 exampleInfo

/-- C4, refuted: the `SnoozConfigurationData` construction is not
well-formed — `async_setup_entry` passes five positional arguments to a
dataclass declaring four fields, so the generated constructor raises a
`TypeError`; the fan platform's read of `data.info` is a declared
field, but the climate platform's read of `data.adv_data` is not. -/
theorem c4_configuration_record_mismatch :
    asyncSetupEntryArgs.length = 5 ∧
    snoozConfigurationDataFields.length = 4 ∧
    dataclassInit snoozConfigurationDataFields asyncSetupEntryArgs = none ∧
    fanSetupFieldReads.all (fun f => snoozConfigurationDataFields.contains f) = true ∧
    climateSetupFieldReads.all (fun f => snoozConfigurationDataFields.contains f)
      = false := by
  decide

/-- C3, refuted on a concrete connected state (volume 40, fan speed
percentage 40): `SnoozWhiteNoiseFan.feature_percentage` returns the
power flag `state.on` rather than the volume, and
`SnoozAirflowFan.feature_percentage` returns `state.fan_speed * 100`
rather than the fan speed percentage. -/
theorem c3_feature_percentage_mismatch :
    pyEq (SnoozWhiteNoiseFan.feature_percentage exampleState40)
        (PyValue.pyint (exampleState40.volume : ℤ)) = false ∧
    SnoozWhiteNoiseFan.feature_percentage exampleState40
      = PyValue.pybool exampleState40.power_on ∧
    pyEq (SnoozAirflowFan.feature_percentage exampleState40)
        (PyValue.pyrat exampleState40.fan_speed) = false ∧
    SnoozAirflowFan.feature_percentage exampleState40 = PyValue.pyrat 4000 := by
  refine ⟨?_, rfl, ?_, ?_⟩
  · norm_num [pyEq, pyNum, SnoozWhiteNoiseFan.feature_percentage, exampleState40]
  · norm_num [pyEq, pyNum, SnoozAirflowFan.feature_percentage, exampleState40]
  · norm_num [SnoozAirflowFan.feature_percentage, exampleState40]

/-- C6: whenever the device session is disconnected (`assumed_state`
true), the entity state properties return the cached last-known-good
values; whenever it is connected they return values derived from the
live device-state snapshot — for the fan's `percentage` and `is_on`
(over any subclass feature accessors) and the light's `brightness` and
`is_on`. -/
theorem c6_assumed_state_fallback
    (feature_percentage : SnoozDeviceState → PyValue)
    (feature_is_on : SnoozDeviceState → Bool)
    (fm : SnoozFanModel) (lm : SnoozLightModel) :
    SnoozFan.assumed_state fm = !fm.is_connected ∧
    SnoozLightEntity.assumed_state lm = !lm.is_connected ∧
    (fm.is_connected = false →
      SnoozFan.percentage feature_percentage fm = fm.cached_percentage ∧
      SnoozFan.is_on feature_is_on fm = fm.cached_is_on) ∧
    (fm.is_connected = true →
      SnoozFan.percentage feature_percentage fm = some (feature_percentage fm.state) ∧
      SnoozFan.is_on feature_is_on fm = some (feature_is_on fm.state)) ∧
    (lm.is_connected = false →
      SnoozLightEntity.brightness lm = lm.cached_brightness ∧
      SnoozLightEntity.is_on lm = lm.cached_is_on) ∧
    (lm.is_connected = true →
      SnoozLightEntity.brightness lm
          = _from_device_brightness (some lm.state.light_brightness) ∧
      SnoozLightEntity.is_on lm = some lm.state.light_on) := by
  cases fm with
  | mk fc fp fconn fst =>
    cases lm with
    | mk lc lb lconn lst =>
      cases fconn <;> cases lconn <;>
        simp [SnoozFan.assumed_state, SnoozFan.percentage, SnoozFan.is_on,
          SnoozLightEntity.assumed_state, SnoozLightEntity.brightness,
          SnoozLightEntity.is_on]

/-- A disconnected fan-entity model with cached values. -/
def exampleFanDisconnected : SnoozFanModel :=
  { cached_is_on := some true
    cached_percentage := some (PyValue.pyint 40)
    is_connected := false
    state := exampleState40 }

/-- A connected light-entity model with empty caches. -/
def exampleLightConnected : SnoozLightModel :=
  { cached_is_on := none
    cached_brightness := none
    is_connected := true
    state := exampleState40 }

/-- Witness for C6 at concrete inputs: the disconnected fan reports its
cache, the connected light reports the converted live brightness. -/
theorem c6_witness :
    SnoozFan.percentage SnoozAirflowFan.feature_percentage exampleFanDisconnected
        = exampleFanDisconnected.cached_percentage ∧
    SnoozLightEntity.brightness exampleLightConnected
        = _from_device_brightness (some exampleLightConnected.state.light_brightness) := by
  have h := c6_assumed_state_fallback SnoozAirflowFan.feature_percentage
    SnoozAirflowFan.feature_is_on exampleFanDisconnected exampleLightConnected
  exact ⟨(h.2.2.1 rfl).1, (h.2.2.2.2.2 rfl).1⟩

/-- C7 (device session, modelled from the spec): when a second command
is submitted while another is in flight, the in-flight command resolves
`CANCELLED`, the new command alone proceeds to completion and resolves
`SUCCESSFUL`, only the new command's write reaches the state, and after
each submission exactly the most recent command is in flight (the
session type admits at most one in-flight command at any instant). -/
theorem c7_preemption_cancels_in_flight (m : SessionModel) (id1 id2 : ℕ)
    (ca cb : SnoozCommandData) (h : m.in_flight = none) :
    (sessionRun m [SessionEvent.submit id1 ca]).in_flight = some (id1, ca) ∧
    (sessionRun m [SessionEvent.submit id1 ca, SessionEvent.submit id2 cb]).in_flight
        = some (id2, cb) ∧
    (sessionRun m [SessionEvent.submit id1 ca, SessionEvent.submit id2 cb,
        SessionEvent.transportOk]).results
        = m.results ++ [(id1, SnoozCommandResultStatus.cancelled),
            (id2, SnoozCommandResultStatus.successful)] ∧
    (sessionRun m [SessionEvent.submit id1 ca, SessionEvent.submit id2 cb,
        SessionEvent.transportOk]).state = applyCommand cb m.state ∧
    (sessionRun m [SessionEvent.submit id1 ca, SessionEvent.submit id2 cb,
        SessionEvent.transportOk]).in_flight = none := by
  refine ⟨?_, ?_, ?_, ?_, ?_⟩ <;> simp [sessionRun, sessionStep, h]

/-- A quiescent session used for witnesses: no command in flight, no
results yet. -/
def exampleSession : SessionModel :=
  { state := exampleState40
    in_flight := none
    results := []
    is_connected := true }

/-- Witness for C7 at concrete inputs: submitting turn-off while
turn-on is in flight cancels the turn-on, and the turn-off completes
with the final state off. -/
theorem c7_witness :
    (sessionRun exampleSession [SessionEvent.submit 1 (turn_on (some 50) none),
        SessionEvent.submit 2 (turn_off none), SessionEvent.transportOk]).results
      = [(1, SnoozCommandResultStatus.cancelled),
         (2, SnoozCommandResultStatus.successful)] := by
  have h := c7_preemption_cancels_in_flight exampleSession 1 2
    (turn_on (some 50) none) (turn_off none) rfl
  simpa [exampleSession] using h.2.2.1

/-- The frame condition of C8, following the spec's words: after a
successful command, every field the command set carries the command's
value and every field it left unset is unchanged; the measured
temperature is never commanded. -/
def commandFrameOk (c : SnoozCommandData) (old new : SnoozDeviceState) : Prop :=
  (∀ v, c.power_on = some v → new.power_on = v) ∧
  (c.power_on = none → new.power_on = old.power_on) ∧
  (∀ v, c.volume = some v → new.volume = v) ∧
  (c.volume = none → new.volume = old.volume) ∧
  (∀ v, c.fan_on = some v → new.fan_on = v) ∧
  (c.fan_on = none → new.fan_on = old.fan_on) ∧
  (∀ v, c.fan_speed = some v → new.fan_speed = v) ∧
  (c.fan_speed = none → new.fan_speed = old.fan_speed) ∧
  (∀ v, c.fan_auto_enabled = some v → new.fan_auto_enabled = v) ∧
  (c.fan_auto_enabled = none → new.fan_auto_enabled = old.fan_auto_enabled) ∧
  (∀ v, c.target_temperature = some v → new.target_temperature = v) ∧
  (c.target_temperature = none → new.target_temperature = old.target_temperature) ∧
  (∀ v, c.light_on = some v → new.light_on = v) ∧
  (c.light_on = none → new.light_on = old.light_on) ∧
  (∀ v, c.light_brightness = some v → new.light_brightness = v) ∧
  (c.light_brightness = none → new.light_brightness = old.light_brightness) ∧
  (∀ v, c.night_mode_enabled = some v → new.night_mode_enabled = v) ∧
  (c.night_mode_enabled = none → new.night_mode_enabled = old.night_mode_enabled) ∧
  new.temperature = old.temperature

/-- Applying a command establishes the frame condition. -/
theorem applyCommand_frame (c : SnoozCommandData) (st : SnoozDeviceState) :
    commandFrameOk c st (applyCommand c st) := by
  refine ⟨fun v hv => ?_, fun h0 => ?_, fun v hv => ?_, fun h0 => ?_,
    fun v hv => ?_, fun h0 => ?_, fun v hv => ?_, fun h0 => ?_,
    fun v hv => ?_, fun h0 => ?_, fun v hv => ?_, fun h0 => ?_,
    fun v hv => ?_, fun h0 => ?_, fun v hv => ?_, fun h0 => ?_,
    fun v hv => ?_, fun h0 => ?_, ?_⟩ <;>
      simp_all [applyCommand]

/-- C8 (device session, modelled from the spec): a command that runs to
completion resolves `SUCCESSFUL`, and the resulting snapshot reflects
exactly the fields the command specified while every unset field is
unchanged from the prior snapshot. -/
theorem c8_successful_command_frame (m : SessionModel) (id : ℕ)
    (c : SnoozCommandData) (h : m.in_flight = none) :
    (sessionRun m [SessionEvent.submit id c, SessionEvent.transportOk]).results
        = m.results ++ [(id, SnoozCommandResultStatus.successful)] ∧
    commandFrameOk c m.state
      (sessionRun m [SessionEvent.submit id c, SessionEvent.transportOk]).state := by
  have hstate :
      (sessionRun m [SessionEvent.submit id c, SessionEvent.transportOk]).state
        = applyCommand c m.state := by
    simp [sessionRun, sessionStep, h]
  refine ⟨?_, ?_⟩
  · simp [sessionRun, sessionStep, h]
  · rw [hstate]
    exact applyCommand_frame c m.state

/-- Witness for C8 at concrete inputs: the spec's scenario — from
volume 40, command `{on: true, volume: 75, duration: 20}` resolves
`SUCCESSFUL` with the new snapshot at volume 75, power on, and the
untouched night-light brightness still 50. -/
theorem c8_witness :
    commandFrameOk (turn_on (some 75) (some 20)) exampleSession.state
      (sessionRun exampleSession [SessionEvent.submit 7 (turn_on (some 75) (some 20)),
          SessionEvent.transportOk]).state ∧
    (sessionRun exampleSession [SessionEvent.submit 7 (turn_on (some 75) (some 20)),
        SessionEvent.transportOk]).state.volume = 75 ∧
    (sessionRun exampleSession [SessionEvent.submit 7 (turn_on (some 75) (some 20)),
        SessionEvent.transportOk]).state.power_on = true ∧
    (sessionRun exampleSession [SessionEvent.submit 7 (turn_on (some 75) (some 20)),
        SessionEvent.transportOk]).state.light_brightness = 50 := by
  refine ⟨(c8_successful_command_frame exampleSession 7 (turn_on (some 75) (some 20))
    rfl).2, ?_, ?_, ?_⟩ <;>
    simp [sessionRun, sessionStep, exampleSession, applyCommand, turn_on,
      exampleState40]

/-- C9: `SnoozFan.async_set_percentage` executes the feature's
turn-off command on percentage 0 and the feature's set-percentage
command on any positive percentage, for both the white-noise and the
airflow feature. -/
theorem c9_set_percentage_dispatch (percentage : ℕ) :
    (0 < percentage →
      SnoozFan.async_set_percentage SnoozWhiteNoiseFan.set_percentage_command
          SnoozWhiteNoiseFan.turn_off_command percentage = set_volume percentage ∧
      SnoozFan.async_set_percentage SnoozAirflowFan.set_percentage_command
          SnoozAirflowFan.turn_off_command percentage
        = set_fan_speed ((percentage : ℚ) / 100)) ∧
    (percentage = 0 →
      SnoozFan.async_set_percentage SnoozWhiteNoiseFan.set_percentage_command
          SnoozWhiteNoiseFan.turn_off_command percentage = turn_off none ∧
      SnoozFan.async_set_percentage SnoozAirflowFan.set_percentage_command
          SnoozAirflowFan.turn_off_command percentage = turn_fan_off none) := by
  constructor
  · intro hp
    simp [SnoozFan.async_set_percentage, hp,
      SnoozWhiteNoiseFan.set_percentage_command,
      SnoozAirflowFan.set_percentage_command]
  · intro hp
    subst hp
    simp [SnoozFan.async_set_percentage,
      SnoozWhiteNoiseFan.turn_off_command, SnoozAirflowFan.turn_off_command]

/-- Witness for C9 at concrete inputs: percentage 5 sets the volume,
percentage 0 turns the airflow feature off. -/
theorem c9_witness :
    (0 < 5 ∧
      SnoozFan.async_set_percentage SnoozWhiteNoiseFan.set_percentage_command
        SnoozWhiteNoiseFan.turn_off_command 5 = set_volume 5) ∧
    SnoozFan.async_set_percentage SnoozAirflowFan.set_percentage_command
        SnoozAirflowFan.turn_off_command 0 = turn_fan_off none :=
  ⟨⟨by norm_num, ((c9_set_percentage_dispatch 5).1 (by norm_num)).1⟩,
    ((c9_set_percentage_dispatch 0).2 rfl).2⟩

set_option maxHeartbeats 4000000 in
set_option maxRecDepth 10000 in
/-- C10: for every device brightness `d` with `0 ≤ d ≤ 100`, converting
to host brightness and back is the identity,
`_to_device_brightness (_from_device_brightness d) = d`, and both
conversions map `None` to `None`. -/
theorem c10_brightness_round_trip :
    (∀ d : ℕ, d ≤ 100 →
      _to_device_brightness (_from_device_brightness (some d)) = some d) ∧
    _from_device_brightness none = none ∧
    _to_device_brightness none = none := by
  refine ⟨?_, rfl, rfl⟩
  decide

/-- Witness for C10 at a concrete input: device brightness 40 survives
the round trip. -/
theorem c10_witness :
    (40 : ℕ) ≤ 100 ∧
    _to_device_brightness (_from_device_brightness (some 40)) = some 40 :=
  ⟨by norm_num, c10_brightness_round_trip.1 40 (by norm_num)⟩
